import Mathlib

/-!
Verification development for the "Summarize and Send Changes to API" action.

The repository ships two implementation variants of the same pipeline:
an untyped variant (index.js) and a typed variant (the unnamed TypeScript
file).  Both are embedded below.  Pure computations (short-hash derivation,
delivery-path normalization, response-shape validation, header construction)
are translated directly; the effectful boundary (git queries, the two HTTP
calls, JSON.parse of a received body) is modelled by an explicit oracle
`World` describing the outcome of each external interaction, and the
orchestrator `run` is embedded as a function from configuration and oracle
to the trace of observable events (outputs published, requests issued) plus
the final completion status.
-/

/-- JSON values as produced by a successful `JSON.parse`.  Numbers are
modelled as integers; none of the verified properties depends on the
fractional part of a number. -/
inductive Json where
  | null : Json
  | bool (b : Bool) : Json
  | num (n : Int) : Json
  | str (s : String) : Json
  | arr (elems : List Json) : Json
  | obj (fields : List (String × Json)) : Json

/-- JavaScript truthiness of a value that is either a parsed JSON value or
`undefined` (modelled as `none`): `undefined`, `null`, `false`, `0` and the
empty string are falsy; every object, array and other primitive is truthy. -/
def truthy : Option Json → Bool
  | none => false
  | some Json.null => false
  | some (Json.bool b) => b
  | some (Json.num n) => decide (n ≠ 0)
  | some (Json.str s) => decide (s ≠ "")
  | some (Json.arr _) => true
  | some (Json.obj _) => true

/-- JavaScript property access `v.name`.  Reading a property of `undefined`
or `null` throws a TypeError (modelled as `Except.error`); on an object it is
field lookup; on arrays and other primitives a name such as `choices`,
`message` or `content` is absent, giving `undefined`. -/
def jsMember : Option Json → String → Except String (Option Json)
  | none, _ => Except.error "TypeError"
  | some Json.null, _ => Except.error "TypeError"
  | some (Json.obj fields), name => Except.ok (fields.lookup name)
  | some _, _ => Except.ok none

/-- JavaScript numeric index access `v[i]`.  On `undefined` or `null` it
throws; on an array it reads the element; on an object it reads the field
whose name is the decimal form of `i`; on a string it reads the character;
otherwise it gives `undefined`. -/
def jsIndex : Option Json → Nat → Except String (Option Json)
  | none, _ => Except.error "TypeError"
  | some Json.null, _ => Except.error "TypeError"
  | some (Json.arr elems), i => Except.ok (elems.get? i)
  | some (Json.obj fields), i => Except.ok (fields.lookup (toString i))
  | some (Json.str s), i => Except.ok ((s.data.get? i).map fun c => Json.str (String.mk [c]))
  | some _, _ => Except.ok none

/-- JavaScript `s.trim()`: remove leading and trailing whitespace. -/
def jsTrim (s : String) : String :=
  String.mk (((s.data.dropWhile Char.isWhitespace).reverse.dropWhile Char.isWhitespace).reverse)

/-- Failure classification of the summary-response handler: either the
explicit rejection `Invalid response format from BlackBox AI`, or the
catch-all of the surrounding try block, `Failed to parse BlackBox AI
response: ...`, which also catches TypeErrors thrown while reading
`content` or calling `trim`. -/
inductive GenError where
  | invalidFormat : GenError
  | parseFailed (msg : String) : GenError
deriving DecidableEq, Repr

/-- The message attached to each `GenError`, as in the source. -/
def genErrorMessage : GenError → String
  | GenError.invalidFormat => "Invalid response format from BlackBox AI"
  | GenError.parseFailed m => "Failed to parse BlackBox AI response: " ++ m

/-- The body of the try block in `generateSummary`'s end handler, after
`JSON.parse` succeeded (index.js lines 86-91, TypeScript lines 163-174):
evaluate `response.choices && response.choices[0] &&
response.choices[0].message`; when truthy, resolve
`response.choices[0].message.content.trim()` (which throws a TypeError when
`content` is not a string), otherwise reject with the invalid-format error.
An `Except.error` at the outer level is a thrown TypeError, caught by the
same catch clause as a parse error. -/
def evalChain (response : Json) : Except String (Except GenError String) :=
  match jsMember (some response) "choices" with
  | Except.error e => Except.error e
  | Except.ok choices =>
    if truthy choices then
      match jsIndex choices 0 with
      | Except.error e => Except.error e
      | Except.ok c0 =>
        if truthy c0 then
          match jsMember c0 "message" with
          | Except.error e => Except.error e
          | Except.ok msg =>
            if truthy msg then
              match jsMember msg "content" with
              | Except.error e => Except.error e
              | Except.ok content =>
                match content with
                | some (Json.str s) => Except.ok (Except.ok (jsTrim s))
                | _ => Except.error "TypeError"
            else Except.ok (Except.error GenError.invalidFormat)
        else Except.ok (Except.error GenError.invalidFormat)
    else Except.ok (Except.error GenError.invalidFormat)

/-- Outcome of `generateSummary`'s end handler given the result of
`JSON.parse` on the accumulated body (`Except.error` = malformed JSON):
parse failures and TypeErrors thrown inside the try block both reject with
the parse-failure message; otherwise the chain decides between resolving the
trimmed content and the invalid-format rejection. -/
def extractSummary (parsed : Except String Json) : Except GenError String :=
  match parsed with
  | Except.error m => Except.error (GenError.parseFailed m)
  | Except.ok response =>
    match evalChain response with
    | Except.error m => Except.error (GenError.parseFailed m)
    | Except.ok result => result

/-- JavaScript `s.substring(0, n)`: the first `n` characters, or the whole
string when it is shorter (code units and characters coincide on the
hexadecimal hashes this is applied to). -/
def jsSubstring0 (s : String) (n : Nat) : String :=
  String.mk (s.data.take n)

/-- The commit record built by `getCommitChanges` (index.js lines 19-26,
TypeScript lines 55-62). -/
structure CommitData where
  message : String
  hash : String
  shortHash : String
  files : String
  diff : String
  branch : String
deriving DecidableEq, Repr

/-- Construction of the commit record from the raw git query results:
`shortHash` is `commitHash.substring(0, 8)` (index.js line 22, TypeScript
line 58). -/
def mkCommitData (message hash files diff branch : String) : CommitData :=
  { message := message
    hash := hash
    shortHash := jsSubstring0 hash 8
    files := files
    diff := diff
    branch := branch }

/-- JavaScript `s.endsWith(pat)`: the pattern is a suffix of the string. -/
def jsEndsWith (s pat : String) : Bool :=
  decide (pat.data <:+ s.data)

/-- JavaScript `path.replace` with the pattern `slash-at-end`: removes one
trailing slash when present (index.js line 147, TypeScript line 265). -/
def stripTrailingSlash (p : String) : String :=
  if p.data.getLast? = some '/' then String.mk p.data.dropLast else p

/-- The path-normalization step of `sendToAPI` (index.js lines 145-148,
TypeScript lines 262-267): when the parsed pathname does not already end
with the literal segment, strip one trailing slash and append it. -/
def normalizePath (p : String) : String :=
  if jsEndsWith p "/generate-content" then p
  else stripTrailingSlash p ++ "/generate-content"

/-- The full request path of `sendToAPI`: the normalized pathname followed
by the original query string (index.js line 149, TypeScript line 268). -/
def sendToAPIPath (pathname search : String) : String :=
  normalizePath pathname ++ search

/-- Modelled from the spec's words for comparison with the source: "if its
path does not already end with the literal segment /generate-content, strip
any trailing slash and append /generate-content; preserve the original query
string by appending it after the normalized path". -/
def specDeliveryPath (pathname search : String) : String :=
  if jsEndsWith pathname "/generate-content" then pathname ++ search
  else stripTrailingSlash pathname ++ "/generate-content" ++ search

namespace IndexJs

/-- Headers of the delivery request in the index.js variant (lines 156-161):
content type, computed content length, bearer authorization from the
delivery API key, and the fixed user-agent. -/
def deliveryHeaders (apiKey : String) (contentLength : Nat) : List (String × String) :=
  [("Content-Type", "application/json"),
   ("Content-Length", toString contentLength),
   ("Authorization", "Bearer " ++ apiKey),
   ("User-Agent", "GitHub-Action-Send-Changes/1.0")]

end IndexJs

namespace IndexTs

/-- Headers of the delivery request in the TypeScript variant (lines
276-280): content type, computed content length and the fixed user-agent;
no authorization header is attached. -/
def deliveryHeaders (contentLength : Nat) : List (String × String) :=
  [("Content-Type", "application/json"),
   ("Content-Length", toString contentLength),
   ("User-Agent", "GitHub-Action-Send-Changes/1.0")]

end IndexTs

/-- The inputs read by `run`.  `core.getInput` yields the empty string for
an unset input, so emptiness is the absence test used by the source. -/
structure Config where
  changes : String
  blackboxApiKey : String
  apiKey : String
  apiUrl : String
  model : String
deriving DecidableEq, Repr

/-- Outcome of the summarization HTTP call: a transport error (connection
or DNS failure), the 30-second timeout, or a completed response whose
accumulated body was given to `JSON.parse` with the recorded result. -/
inductive GenOutcome where
  | transportError (msg : String) : GenOutcome
  | timeout : GenOutcome
  | response (parsed : Except String Json) : GenOutcome

/-- Outcome of the delivery HTTP call: a transport error, the 30-second
timeout, or a completed `RemoteResponse` with status code and raw body. -/
inductive DeliveryOutcome where
  | transportError (msg : String) : DeliveryOutcome
  | timeout : DeliveryOutcome
  | response (statusCode : Nat) (body : String) : DeliveryOutcome
deriving DecidableEq, Repr

/-- Oracle for the run's external interactions: the result of the git
queries (`none` when `getCommitChanges` fails and returns null), and the
outcomes of the two HTTP calls, consulted only if the run reaches them. -/
structure World where
  gitResult : Option CommitData
  genOutcome : GenOutcome
  deliveryOutcome : DeliveryOutcome

/-- Observable events of a run: an output published via `core.setOutput`,
the git query of `getCommitChanges`, the summarization request of
`generateSummary`, and the delivery request of `sendToAPI`. -/
inductive Event where
  | outputSet (name value : String) : Event
  | gitQuery : Event
  | summaryRequest : Event
  | deliveryRequest : Event
deriving DecidableEq, Repr

/-- Result of a run: the ordered trace of observable events, and `some msg`
exactly when `core.setFailed msg` was called (non-zero completion). -/
structure RunResult where
  events : List Event
  failure : Option String
deriving DecidableEq, Repr

/-- The summary-resolution stage of `run` (index.js lines 222-240,
TypeScript lines 388-407): a non-empty `changes` input is used verbatim
without any external call; otherwise the git query runs, a null result
aborts, and otherwise the summarization call's outcome decides between the
generated summary and the corresponding failure message. -/
def summaryStage (cfg : Config) (w : World) : List Event × Except String String :=
  if cfg.changes ≠ "" then ([], Except.ok cfg.changes)
  else
    match w.gitResult with
    | none => ([Event.gitQuery],
        Except.error "Could not retrieve commit data and no changes provided")
    | some _ =>
      match w.genOutcome with
      | GenOutcome.transportError m =>
          ([Event.gitQuery, Event.summaryRequest], Except.error m)
      | GenOutcome.timeout =>
          ([Event.gitQuery, Event.summaryRequest],
           Except.error "BlackBox AI request timeout")
      | GenOutcome.response parsed =>
        match extractSummary parsed with
        | Except.error e =>
            ([Event.gitQuery, Event.summaryRequest],
             Except.error (genErrorMessage e))
        | Except.ok s => ([Event.gitQuery, Event.summaryRequest], Except.ok s)

/-- The placeholder `response` output published when no delivery endpoint is
configured (index.js line 265, TypeScript line 438). -/
def noApiPlaceholder : String := "No API configured - summary generated only"

/-- The shared body of `run`, parameterized by the variant-specific
`hasApiConfig` decision: validate the required summarization key, resolve
the summary, publish it, then either perform the delivery call (a completed
response of any status code publishes the `response` and `status` outputs
and completes successfully; a transport error or timeout aborts) or publish
the placeholder outputs (index.js lines 199-274, TypeScript lines 346-451). -/
def runWith (hasApi : Bool) (cfg : Config) (w : World) : RunResult :=
  if cfg.blackboxApiKey = "" then
    { events := [], failure := some "BlackBox API key is required" }
  else
    match summaryStage cfg w with
    | (evs, Except.error msg) => { events := evs, failure := some msg }
    | (evs, Except.ok summary) =>
      if hasApi then
        match w.deliveryOutcome with
        | DeliveryOutcome.transportError m =>
            { events := evs ++ [Event.outputSet "summary" summary, Event.deliveryRequest]
              failure := some m }
        | DeliveryOutcome.timeout =>
            { events := evs ++ [Event.outputSet "summary" summary, Event.deliveryRequest]
              failure := some "Request timeout" }
        | DeliveryOutcome.response sc body =>
            { events := evs ++ [Event.outputSet "summary" summary, Event.deliveryRequest,
                Event.outputSet "response" body, Event.outputSet "status" (toString sc)]
              failure := none }
      else
        { events := evs ++ [Event.outputSet "summary" summary,
            Event.outputSet "response" noApiPlaceholder, Event.outputSet "status" "200"]
          failure := none }

namespace IndexJs

/-- The index.js variant's delivery-configured test (line 214): the JS
truthiness of `apiKey && apiUrl`, i.e. both strings non-empty. -/
def hasApiConfig (cfg : Config) : Bool :=
  decide (cfg.apiKey ≠ "") && decide (cfg.apiUrl ≠ "")

/-- The index.js `run` (lines 199-274). -/
def run (cfg : Config) (w : World) : RunResult :=
  runWith (hasApiConfig cfg) cfg w

end IndexJs

namespace IndexTs

/-- The TypeScript variant's delivery-configured test (line 378): the
truthiness of `apiUrl` alone; the delivery API key is never read. -/
def hasApiConfig (cfg : Config) : Bool :=
  decide (cfg.apiUrl ≠ "")

/-- The TypeScript `run` (lines 346-451). -/
def run (cfg : Config) (w : World) : RunResult :=
  runWith (hasApiConfig cfg) cfg w

end IndexTs

/-- The model selection of `run`: the `model` input, defaulting to the
fixed identifier when unset (index.js line 206, TypeScript line 355). -/
def resolvedModel (cfg : Config) : String :=
  if cfg.model = "" then "blackboxai" else cfg.model

/-- The hard-failure causes of a run: missing required configuration, an
extraction failure, a summarization transport error, timeout or
invalid-shape response, or a delivery transport error or timeout.  A
completed delivery response of any status code is absent from this list. -/
def hardCause (cfg : Config) (w : World) : Prop :=
  cfg.blackboxApiKey = "" ∨
  (cfg.changes = "" ∧ w.gitResult = none) ∨
  (∃ m, w.genOutcome = GenOutcome.transportError m) ∨
  w.genOutcome = GenOutcome.timeout ∨
  (∃ p e, w.genOutcome = GenOutcome.response p ∧ extractSummary p = Except.error e) ∨
  (∃ m, w.deliveryOutcome = DeliveryOutcome.transportError m) ∨
  w.deliveryOutcome = DeliveryOutcome.timeout

/-- Modelled from the spec's words for comparison with the source: the
response shape the spec requires for success, a parsed JSON object
containing a non-empty choices array whose first element has a
message.content string. -/
def specSuccessShape : Json → Bool
  | Json.obj fs =>
    match fs.lookup "choices" with
    | some (Json.arr (Json.obj cfs :: _)) =>
      match cfs.lookup "message" with
      | some (Json.obj mfs) =>
        match mfs.lookup "content" with
        | some (Json.str _) => true
        | _ => false
      | _ => false
    | _ => false
  | _ => false

/-- A parsed response whose choices member is a JSON object with a field
named 0 rather than an array; JavaScript bracket indexing reads the field. -/
def choicesObjectResponse : Json :=
  Json.obj [("choices", Json.obj [("0",
    Json.obj [("message", Json.obj [("content", Json.str "hi")])])])]

/-! ### Helper lemmas -/

theorem jsEndsWith_append (x : String) :
    jsEndsWith (x ++ "/generate-content") "/generate-content" = true := by
  simp [jsEndsWith, String.data_append]

theorem normalizePath_endsWith (p : String) :
    jsEndsWith (normalizePath p) "/generate-content" = true := by
  unfold normalizePath
  split
  · assumption
  · exact jsEndsWith_append (stripTrailingSlash p)

theorem normalizePath_of_endsWith (p : String)
    (h : jsEndsWith p "/generate-content" = true) : normalizePath p = p := by
  unfold normalizePath
  rw [h]
  simp

theorem normalizePath_idem (p : String) :
    normalizePath (normalizePath p) = normalizePath p :=
  normalizePath_of_endsWith _ (normalizePath_endsWith p)

theorem summaryStage_mem (cfg : Config) (w : World) :
    ∀ e ∈ (summaryStage cfg w).1, e = Event.gitQuery ∨ e = Event.summaryRequest := by
  intro e he
  by_cases hc : cfg.changes = ""
  · rcases hg : w.gitResult with _ | cd
    · simp [summaryStage, hc, hg] at he
      simp [he]
    · rcases ho : w.genOutcome with m | _ | parsed
      · simp [summaryStage, hc, hg, ho] at he
        tauto
      · simp [summaryStage, hc, hg, ho] at he
        tauto
      · rcases hx : extractSummary parsed with e2 | s <;>
          · simp [summaryStage, hc, hg, ho, hx] at he
            tauto
  · simp [summaryStage, hc] at he

theorem summaryStage_no_output (cfg : Config) (w : World) (n v : String) :
    Event.outputSet n v ∉ (summaryStage cfg w).1 := by
  intro hmem
  rcases summaryStage_mem cfg w _ hmem with h | h <;> simp at h

theorem summaryStage_changes (cfg : Config) (w : World) (hc : cfg.changes ≠ "") :
    summaryStage cfg w = ([], Except.ok cfg.changes) := by
  simp [summaryStage, hc]

theorem summaryStage_error_cause (cfg : Config) (w : World) (m : String)
    (h : (summaryStage cfg w).2 = Except.error m) :
    cfg.changes = "" ∧
      (w.gitResult = none ∨ (∃ m2, w.genOutcome = GenOutcome.transportError m2) ∨
       w.genOutcome = GenOutcome.timeout ∨
       (∃ p e, w.genOutcome = GenOutcome.response p ∧ extractSummary p = Except.error e)) := by
  by_cases hc : cfg.changes = ""
  · refine ⟨hc, ?_⟩
    rcases hg : w.gitResult with _ | cd
    · exact Or.inl rfl
    · rcases ho : w.genOutcome with m2 | _ | parsed
      · exact Or.inr (Or.inl ⟨m2, rfl⟩)
      · exact Or.inr (Or.inr (Or.inl rfl))
      · rcases hx : extractSummary parsed with e2 | s
        · exact Or.inr (Or.inr (Or.inr ⟨parsed, e2, rfl, hx⟩))
        · simp [summaryStage, hc, hg, ho, hx] at h
  · simp [summaryStage, hc] at h

theorem runWith_key_empty (b : Bool) (cfg : Config) (w : World)
    (h : cfg.blackboxApiKey = "") :
    runWith b cfg w = ⟨[], some "BlackBox API key is required"⟩ := by
  simp [runWith, h]

theorem runWith_stage_error (b : Bool) (cfg : Config) (w : World)
    (evs : List Event) (m : String)
    (hk : cfg.blackboxApiKey ≠ "") (h : summaryStage cfg w = (evs, Except.error m)) :
    runWith b cfg w = ⟨evs, some m⟩ := by
  simp [runWith, hk, h]

theorem runWith_ok_api_response (cfg : Config) (w : World)
    (evs : List Event) (s : String) (sc : Nat) (body : String)
    (hk : cfg.blackboxApiKey ≠ "") (h : summaryStage cfg w = (evs, Except.ok s))
    (hd : w.deliveryOutcome = DeliveryOutcome.response sc body) :
    runWith true cfg w =
      ⟨evs ++ [Event.outputSet "summary" s, Event.deliveryRequest,
        Event.outputSet "response" body, Event.outputSet "status" (toString sc)], none⟩ := by
  simp [runWith, hk, h, hd]

theorem runWith_ok_api_transport (cfg : Config) (w : World)
    (evs : List Event) (s : String) (m : String)
    (hk : cfg.blackboxApiKey ≠ "") (h : summaryStage cfg w = (evs, Except.ok s))
    (hd : w.deliveryOutcome = DeliveryOutcome.transportError m) :
    runWith true cfg w =
      ⟨evs ++ [Event.outputSet "summary" s, Event.deliveryRequest], some m⟩ := by
  simp [runWith, hk, h, hd]

theorem runWith_ok_api_timeout (cfg : Config) (w : World)
    (evs : List Event) (s : String)
    (hk : cfg.blackboxApiKey ≠ "") (h : summaryStage cfg w = (evs, Except.ok s))
    (hd : w.deliveryOutcome = DeliveryOutcome.timeout) :
    runWith true cfg w =
      ⟨evs ++ [Event.outputSet "summary" s, Event.deliveryRequest], some "Request timeout"⟩ := by
  simp [runWith, hk, h, hd]

theorem runWith_ok_no_api (cfg : Config) (w : World)
    (evs : List Event) (s : String)
    (hk : cfg.blackboxApiKey ≠ "") (h : summaryStage cfg w = (evs, Except.ok s)) :
    runWith false cfg w =
      ⟨evs ++ [Event.outputSet "summary" s,
        Event.outputSet "response" noApiPlaceholder, Event.outputSet "status" "200"], none⟩ := by
  simp [runWith, hk, h]

theorem runWith_soft (b : Bool) (cfg : Config) (w : World) (sc : Nat) (body : String)
    (hd : w.deliveryOutcome = DeliveryOutcome.response sc body)
    (hr : Event.deliveryRequest ∈ (runWith b cfg w).events) :
    (runWith b cfg w).failure = none ∧
    Event.outputSet "status" (toString sc) ∈ (runWith b cfg w).events ∧
    Event.outputSet "response" body ∈ (runWith b cfg w).events := by
  by_cases hk : cfg.blackboxApiKey = ""
  · rw [runWith_key_empty b cfg w hk] at hr
    simp at hr
  · rcases hs : summaryStage cfg w with ⟨evs, res⟩
    rcases res with m | s
    · rw [runWith_stage_error b cfg w evs m hk hs] at hr
      exact absurd (summaryStage_mem cfg w _ (by rw [hs]; exact hr)) (by simp)
    · cases b
      · rw [runWith_ok_no_api cfg w evs s hk hs] at hr
        simp at hr
        exact absurd (summaryStage_mem cfg w _ (by rw [hs]; exact hr)) (by simp)
      · rw [runWith_ok_api_response cfg w evs s sc body hk hs hd]
        refine ⟨rfl, ?_, ?_⟩ <;> simp

theorem runWith_hard (b : Bool) (cfg : Config) (w : World) (msg : String)
    (h : (runWith b cfg w).failure = some msg) : hardCause cfg w := by
  by_cases hk : cfg.blackboxApiKey = ""
  · exact Or.inl hk
  · rcases hs : summaryStage cfg w with ⟨evs, res⟩
    rcases res with m | s
    · have h2 := summaryStage_error_cause cfg w m (by rw [hs])
      rcases h2 with ⟨hc, hg | hgen | hgen | hgen⟩
      · exact Or.inr (Or.inl ⟨hc, hg⟩)
      · exact Or.inr (Or.inr (Or.inl hgen))
      · exact Or.inr (Or.inr (Or.inr (Or.inl hgen)))
      · exact Or.inr (Or.inr (Or.inr (Or.inr (Or.inl hgen))))
    · cases b
      · rw [runWith_ok_no_api cfg w evs s hk hs] at h
        simp at h
      · rcases hdo : w.deliveryOutcome with m2 | _ | ⟨sc, body⟩
        · exact Or.inr (Or.inr (Or.inr (Or.inr (Or.inr (Or.inl ⟨m2, hdo⟩)))))
        · exact Or.inr (Or.inr (Or.inr (Or.inr (Or.inr (Or.inr hdo)))))
        · rw [runWith_ok_api_response cfg w evs s sc body hk hs hdo] at h
          simp at h

theorem runWith_order (b : Bool) (cfg : Config) (w : World)
    (hr : Event.deliveryRequest ∈ (runWith b cfg w).events) :
    ∃ s post, (runWith b cfg w).events =
      (summaryStage cfg w).1 ++ Event.outputSet "summary" s :: Event.deliveryRequest :: post := by
  by_cases hk : cfg.blackboxApiKey = ""
  · rw [runWith_key_empty b cfg w hk] at hr
    simp at hr
  · rcases hs : summaryStage cfg w with ⟨evs, res⟩
    rcases res with m | s
    · rw [runWith_stage_error b cfg w evs m hk hs] at hr
      exact absurd (summaryStage_mem cfg w _ (by rw [hs]; exact hr)) (by simp)
    · cases b
      · rw [runWith_ok_no_api cfg w evs s hk hs] at hr
        simp at hr
        exact absurd (summaryStage_mem cfg w _ (by rw [hs]; exact hr)) (by simp)
      · rcases hdo : w.deliveryOutcome with m2 | _ | ⟨sc, body⟩
        · rw [runWith_ok_api_transport cfg w evs s m2 hk hs hdo]
          exact ⟨s, [], rfl⟩
        · rw [runWith_ok_api_timeout cfg w evs s hk hs hdo]
          exact ⟨s, [], rfl⟩
        · rw [runWith_ok_api_response cfg w evs s sc body hk hs hdo]
          exact ⟨s, [Event.outputSet "response" body, Event.outputSet "status" (toString sc)], rfl⟩

theorem runWith_transport_frame (b : Bool) (cfg : Config) (w : World)
    (hd : (∃ m, w.deliveryOutcome = DeliveryOutcome.transportError m) ∨
          w.deliveryOutcome = DeliveryOutcome.timeout)
    (hr : Event.deliveryRequest ∈ (runWith b cfg w).events) :
    (runWith b cfg w).failure.isSome = true ∧
    (∃ s, Event.outputSet "summary" s ∈ (runWith b cfg w).events) ∧
    (∀ v, Event.outputSet "response" v ∉ (runWith b cfg w).events) ∧
    (∀ v, Event.outputSet "status" v ∉ (runWith b cfg w).events) := by
  by_cases hk : cfg.blackboxApiKey = ""
  · rw [runWith_key_empty b cfg w hk] at hr
    simp at hr
  · rcases hs : summaryStage cfg w with ⟨evs, res⟩
    rcases res with m | s
    · rw [runWith_stage_error b cfg w evs m hk hs] at hr
      exact absurd (summaryStage_mem cfg w _ (by rw [hs]; exact hr)) (by simp)
    · cases b
      · rw [runWith_ok_no_api cfg w evs s hk hs] at hr
        simp at hr
        exact absurd (summaryStage_mem cfg w _ (by rw [hs]; exact hr)) (by simp)
      · have key : ∀ m2, runWith true cfg w =
            ⟨evs ++ [Event.outputSet "summary" s, Event.deliveryRequest], some m2⟩ →
            (runWith true cfg w).failure.isSome = true ∧
            (∃ s2, Event.outputSet "summary" s2 ∈ (runWith true cfg w).events) ∧
            (∀ v, Event.outputSet "response" v ∉ (runWith true cfg w).events) ∧
            (∀ v, Event.outputSet "status" v ∉ (runWith true cfg w).events) := by
          intro m2 heq
          rw [heq]
          refine ⟨rfl, ⟨s, by simp⟩, ?_, ?_⟩ <;>
            · intro v hv
              simp at hv
              exact absurd (summaryStage_mem cfg w _ (by rw [hs]; exact hv)) (by simp)
        rcases hd with ⟨m2, hdo⟩ | hdo
        · exact key m2 (runWith_ok_api_transport cfg w evs s m2 hk hs hdo)
        · exact key "Request timeout" (runWith_ok_api_timeout cfg w evs s hk hs hdo)

theorem runWith_no_delivery (cfg : Config) (w : World) :
    Event.deliveryRequest ∉ (runWith false cfg w).events := by
  intro hr
  by_cases hk : cfg.blackboxApiKey = ""
  · rw [runWith_key_empty false cfg w hk] at hr
    simp at hr
  · rcases hs : summaryStage cfg w with ⟨evs, res⟩
    rcases res with m | s
    · rw [runWith_stage_error false cfg w evs m hk hs] at hr
      exact absurd (summaryStage_mem cfg w _ (by rw [hs]; exact hr)) (by simp)
    · rw [runWith_ok_no_api cfg w evs s hk hs] at hr
      simp at hr
      exact absurd (summaryStage_mem cfg w _ (by rw [hs]; exact hr)) (by simp)

theorem runWith_delivery_iff (b : Bool) (cfg : Config) (w : World) :
    Event.deliveryRequest ∈ (runWith b cfg w).events ↔
      (b = true ∧ cfg.blackboxApiKey ≠ "" ∧
       ∃ s, (summaryStage cfg w).2 = Except.ok s) := by
  constructor
  · intro hr
    by_cases hk : cfg.blackboxApiKey = ""
    · rw [runWith_key_empty b cfg w hk] at hr
      simp at hr
    · rcases hs : summaryStage cfg w with ⟨evs, res⟩
      rcases res with m | s
      · rw [runWith_stage_error b cfg w evs m hk hs] at hr
        exact absurd (summaryStage_mem cfg w _ (by rw [hs]; exact hr)) (by simp)
      · cases b
        · exact absurd hr (runWith_no_delivery cfg w)
        · exact ⟨rfl, hk, s, rfl⟩
  · rintro ⟨hb, hk, s, hok⟩
    subst hb
    rcases hs : summaryStage cfg w with ⟨evs, res⟩
    rw [hs] at hok
    simp at hok
    subst hok
    rcases hdo : w.deliveryOutcome with m2 | _ | ⟨sc, body⟩
    · rw [runWith_ok_api_transport cfg w evs s m2 hk hs hdo]
      simp
    · rw [runWith_ok_api_timeout cfg w evs s hk hs hdo]
      simp
    · rw [runWith_ok_api_response cfg w evs s sc body hk hs hdo]
      simp

theorem runWith_changes_frame (b : Bool) (cfg : Config) (w : World)
    (hc : cfg.changes ≠ "") :
    Event.gitQuery ∉ (runWith b cfg w).events ∧
    Event.summaryRequest ∉ (runWith b cfg w).events ∧
    (∀ v, Event.outputSet "summary" v ∈ (runWith b cfg w).events → v = cfg.changes) ∧
    (cfg.blackboxApiKey ≠ "" →
      Event.outputSet "summary" cfg.changes ∈ (runWith b cfg w).events) := by
  have hs := summaryStage_changes cfg w hc
  by_cases hk : cfg.blackboxApiKey = ""
  · rw [runWith_key_empty b cfg w hk]
    simp [hk]
  · cases b
    · rw [runWith_ok_no_api cfg w [] cfg.changes hk hs]
      simp [noApiPlaceholder]
    · rcases hdo : w.deliveryOutcome with m2 | _ | ⟨sc, body⟩
      · rw [runWith_ok_api_transport cfg w [] cfg.changes m2 hk hs hdo]
        simp
      · rw [runWith_ok_api_timeout cfg w [] cfg.changes hk hs hdo]
        simp
      · rw [runWith_ok_api_response cfg w [] cfg.changes sc body hk hs hdo]
        simp

theorem runWith_skip_outputs (cfg : Config) (w : World) (s : String)
    (hk : cfg.blackboxApiKey ≠ "") (hok : (summaryStage cfg w).2 = Except.ok s) :
    (runWith false cfg w).failure = none ∧
    Event.outputSet "status" "200" ∈ (runWith false cfg w).events ∧
    Event.outputSet "response" noApiPlaceholder ∈ (runWith false cfg w).events ∧
    Event.outputSet "summary" s ∈ (runWith false cfg w).events := by
  rcases hs : summaryStage cfg w with ⟨evs, res⟩
  rw [hs] at hok
  simp at hok
  subst hok
  rw [runWith_ok_no_api cfg w evs s hk hs]
  refine ⟨rfl, by simp, by simp, by simp⟩

theorem extractSummary_arr_ok (fs cfs mfs : List (String × Json)) (cs : List Json) (s : String)
    (h1 : fs.lookup "choices" = some (Json.arr (Json.obj cfs :: cs)))
    (h2 : cfs.lookup "message" = some (Json.obj mfs))
    (h3 : mfs.lookup "content" = some (Json.str s)) :
    extractSummary (Except.ok (Json.obj fs)) = Except.ok (jsTrim s) := by
  simp [extractSummary, evalChain, jsMember, jsIndex, truthy, h1, h2, h3]

theorem extractSummary_malformed (m : String) :
    extractSummary (Except.error m) = Except.error (GenError.parseFailed m) := rfl

theorem extractSummary_no_choices (fs : List (String × Json))
    (h1 : fs.lookup "choices" = none) :
    extractSummary (Except.ok (Json.obj fs)) = Except.error GenError.invalidFormat := by
  simp [extractSummary, evalChain, jsMember, truthy, h1]

theorem extractSummary_no_message (fs cfs : List (String × Json)) (cs : List Json)
    (h1 : fs.lookup "choices" = some (Json.arr (Json.obj cfs :: cs)))
    (h2 : cfs.lookup "message" = none) :
    extractSummary (Except.ok (Json.obj fs)) = Except.error GenError.invalidFormat := by
  simp [extractSummary, evalChain, jsMember, jsIndex, truthy, h1, h2]

theorem extractSummary_no_content (fs cfs mfs : List (String × Json)) (cs : List Json)
    (h1 : fs.lookup "choices" = some (Json.arr (Json.obj cfs :: cs)))
    (h2 : cfs.lookup "message" = some (Json.obj mfs))
    (h3 : mfs.lookup "content" = none) :
    extractSummary (Except.ok (Json.obj fs)) =
      Except.error (GenError.parseFailed "TypeError") := by
  simp [extractSummary, evalChain, jsMember, jsIndex, truthy, h1, h2, h3]

theorem extractSummary_err_shape (p : Except String Json) (e : GenError)
    (h : extractSummary p = Except.error e) :
    e = GenError.invalidFormat ∨ ∃ m, e = GenError.parseFailed m := by
  cases e
  · exact Or.inl rfl
  · exact Or.inr ⟨_, rfl⟩

theorem shortHash_append (m h f d b : String) :
    (mkCommitData m h f d b).shortHash ++ String.mk (h.data.drop 8) = h := by
  show String.mk (h.data.take 8) ++ String.mk (h.data.drop 8) = h
  have heq : String.mk (h.data.take 8) ++ String.mk (h.data.drop 8) =
      String.mk (h.data.take 8 ++ h.data.drop 8) := rfl
  rw [heq, List.take_append_drop]

theorem shortHash_short (m h f d b : String) (hlt : h.data.length < 8) :
    (mkCommitData m h f d b).shortHash = h := by
  show String.mk (h.data.take 8) = h
  rw [List.take_of_length_le (Nat.le_of_lt hlt)]

/-! ### Claim theorems -/

/-- Claim C1: a completed delivery response of any status code (for example
404) never fails the run: when a delivery request was made and the delivery
call returned a response, the run completes with no failure, the status
output is the stringified status code and the response output is the
received body, in both variants; and every failing run is caused by missing
required configuration, extraction failure, a summarization transport error,
timeout or invalid-shape response, or a delivery transport error or timeout
- never by a non-2xx delivery status. -/
theorem delivery_non2xx_soft :
    (∀ (cfg : Config) (w : World) (sc : Nat) (body : String),
      w.deliveryOutcome = DeliveryOutcome.response sc body →
      Event.deliveryRequest ∈ (IndexJs.run cfg w).events →
      (IndexJs.run cfg w).failure = none ∧
      Event.outputSet "status" (toString sc) ∈ (IndexJs.run cfg w).events ∧
      Event.outputSet "response" body ∈ (IndexJs.run cfg w).events) ∧
    (∀ (cfg : Config) (w : World) (sc : Nat) (body : String),
      w.deliveryOutcome = DeliveryOutcome.response sc body →
      Event.deliveryRequest ∈ (IndexTs.run cfg w).events →
      (IndexTs.run cfg w).failure = none ∧
      Event.outputSet "status" (toString sc) ∈ (IndexTs.run cfg w).events ∧
      Event.outputSet "response" body ∈ (IndexTs.run cfg w).events) ∧
    (∀ (cfg : Config) (w : World) (msg : String),
      (IndexJs.run cfg w).failure = some msg → hardCause cfg w) ∧
    (∀ (cfg : Config) (w : World) (msg : String),
      (IndexTs.run cfg w).failure = some msg → hardCause cfg w) :=
  ⟨fun cfg w sc body hd hr => runWith_soft _ cfg w sc body hd hr,
   fun cfg w sc body hd hr => runWith_soft _ cfg w sc body hd hr,
   fun cfg w msg h => runWith_hard _ cfg w msg h,
   fun cfg w msg h => runWith_hard _ cfg w msg h⟩

/-- Witness for claim C1: a concrete run with a 404 delivery response
completes with no failure and publishes status 404 and the received body. -/
theorem delivery_non2xx_soft_witness :
    (IndexJs.run ⟨"chg", "bk", "k", "http://collector.example", ""⟩
        ⟨none, GenOutcome.timeout, DeliveryOutcome.response 404 "not found"⟩).failure = none ∧
    Event.outputSet "status" "404" ∈
      (IndexJs.run ⟨"chg", "bk", "k", "http://collector.example", ""⟩
        ⟨none, GenOutcome.timeout, DeliveryOutcome.response 404 "not found"⟩).events ∧
    Event.outputSet "response" "not found" ∈
      (IndexJs.run ⟨"chg", "bk", "k", "http://collector.example", ""⟩
        ⟨none, GenOutcome.timeout, DeliveryOutcome.response 404 "not found"⟩).events :=
  delivery_non2xx_soft.1 ⟨"chg", "bk", "k", "http://collector.example", ""⟩
    ⟨none, GenOutcome.timeout, DeliveryOutcome.response 404 "not found"⟩ 404 "not found"
    rfl (by decide)

/-- Counterexample to claim C2 as stated: in the TypeScript variant a run
whose delivery API key is empty still makes a delivery request, because
that variant consults only the delivery URL. -/
theorem delivery_config_counterexample :
    (⟨"chg", "bk", "", "http://collector.example", ""⟩ : Config).apiKey = "" ∧
    Event.deliveryRequest ∈
      (IndexTs.run ⟨"chg", "bk", "", "http://collector.example", ""⟩
        ⟨none, GenOutcome.timeout, DeliveryOutcome.response 200 "ok"⟩).events :=
  ⟨rfl, by decide⟩

/-- Claim C2 amended: in the index.js variant a delivery request is made
exactly when the delivery API key and URL are both non-empty and the run
reaches delivery (required key present and summary resolution succeeded);
in the TypeScript variant the delivery API key is not consulted and a
delivery request is made exactly when the URL is non-empty and the run
reaches delivery. -/
theorem delivery_config_characterization :
    ∀ (cfg : Config) (w : World),
      (Event.deliveryRequest ∈ (IndexJs.run cfg w).events ↔
        (cfg.apiKey ≠ "" ∧ cfg.apiUrl ≠ "" ∧ cfg.blackboxApiKey ≠ "" ∧
         ∃ s, (summaryStage cfg w).2 = Except.ok s)) ∧
      (Event.deliveryRequest ∈ (IndexTs.run cfg w).events ↔
        (cfg.apiUrl ≠ "" ∧ cfg.blackboxApiKey ≠ "" ∧
         ∃ s, (summaryStage cfg w).2 = Except.ok s)) := by
  intro cfg w
  constructor
  · rw [show IndexJs.run cfg w = runWith (IndexJs.hasApiConfig cfg) cfg w from rfl,
        runWith_delivery_iff]
    simp [IndexJs.hasApiConfig, and_assoc]
  · rw [show IndexTs.run cfg w = runWith (IndexTs.hasApiConfig cfg) cfg w from rfl,
        runWith_delivery_iff]
    simp [IndexTs.hasApiConfig]

/-- Claim C3: when the changes input is non-empty, neither variant queries
git or requests a summarization; every published summary output equals the
supplied changes value exactly, and it is published whenever the required
key is present. -/
theorem supplied_changes_bypass :
    ∀ (cfg : Config) (w : World), cfg.changes ≠ "" →
      (Event.gitQuery ∉ (IndexJs.run cfg w).events ∧
       Event.summaryRequest ∉ (IndexJs.run cfg w).events ∧
       (∀ v, Event.outputSet "summary" v ∈ (IndexJs.run cfg w).events → v = cfg.changes) ∧
       (cfg.blackboxApiKey ≠ "" →
         Event.outputSet "summary" cfg.changes ∈ (IndexJs.run cfg w).events)) ∧
      (Event.gitQuery ∉ (IndexTs.run cfg w).events ∧
       Event.summaryRequest ∉ (IndexTs.run cfg w).events ∧
       (∀ v, Event.outputSet "summary" v ∈ (IndexTs.run cfg w).events → v = cfg.changes) ∧
       (cfg.blackboxApiKey ≠ "" →
         Event.outputSet "summary" cfg.changes ∈ (IndexTs.run cfg w).events)) :=
  fun cfg w hc =>
    ⟨runWith_changes_frame (IndexJs.hasApiConfig cfg) cfg w hc,
     runWith_changes_frame (IndexTs.hasApiConfig cfg) cfg w hc⟩

/-- Witness for claim C3: a concrete run with a supplied changes value
publishes it verbatim as the summary output and never queries git. -/
theorem supplied_changes_bypass_witness :
    Event.outputSet "summary" "patch notes" ∈
      (IndexJs.run ⟨"patch notes", "bk", "", "", ""⟩
        ⟨none, GenOutcome.timeout, DeliveryOutcome.timeout⟩).events ∧
    Event.gitQuery ∉
      (IndexJs.run ⟨"patch notes", "bk", "", "", ""⟩
        ⟨none, GenOutcome.timeout, DeliveryOutcome.timeout⟩).events :=
  ⟨(supplied_changes_bypass ⟨"patch notes", "bk", "", "", ""⟩
      ⟨none, GenOutcome.timeout, DeliveryOutcome.timeout⟩ (by decide)).1.2.2.2 (by decide),
   (supplied_changes_bypass ⟨"patch notes", "bk", "", "", ""⟩
      ⟨none, GenOutcome.timeout, DeliveryOutcome.timeout⟩ (by decide)).1.1⟩

/-- Claim C4: with an empty delivery URL no delivery request is ever made
in either variant, and a run that resolves its summary completes with no
failure, status output 200 and the fixed placeholder response output. -/
theorem no_delivery_url_placeholder :
    ∀ (cfg : Config) (w : World), cfg.apiUrl = "" →
      (Event.deliveryRequest ∉ (IndexJs.run cfg w).events ∧
       Event.deliveryRequest ∉ (IndexTs.run cfg w).events) ∧
      (∀ s, cfg.blackboxApiKey ≠ "" → (summaryStage cfg w).2 = Except.ok s →
        ((IndexJs.run cfg w).failure = none ∧
         Event.outputSet "status" "200" ∈ (IndexJs.run cfg w).events ∧
         Event.outputSet "response" noApiPlaceholder ∈ (IndexJs.run cfg w).events ∧
         (IndexTs.run cfg w).failure = none ∧
         Event.outputSet "status" "200" ∈ (IndexTs.run cfg w).events ∧
         Event.outputSet "response" noApiPlaceholder ∈ (IndexTs.run cfg w).events)) := by
  intro cfg w hu
  have ejs : IndexJs.run cfg w = runWith false cfg w := by
    unfold IndexJs.run
    have : IndexJs.hasApiConfig cfg = false := by simp [IndexJs.hasApiConfig, hu]
    rw [this]
  have ets : IndexTs.run cfg w = runWith false cfg w := by
    unfold IndexTs.run
    have : IndexTs.hasApiConfig cfg = false := by simp [IndexTs.hasApiConfig, hu]
    rw [this]
  refine ⟨⟨?_, ?_⟩, ?_⟩
  · rw [ejs]
    exact runWith_no_delivery cfg w
  · rw [ets]
    exact runWith_no_delivery cfg w
  · intro s hk hok
    rw [ejs, ets]
    obtain ⟨hf, hst, hresp, _⟩ := runWith_skip_outputs cfg w s hk hok
    exact ⟨hf, hst, hresp, hf, hst, hresp⟩

/-- Witness for claim C4: a concrete run with an empty delivery URL
completes with status 200 and the placeholder response in both variants. -/
theorem no_delivery_url_placeholder_witness :
    (IndexJs.run ⟨"chg", "bk", "k", "", ""⟩
      ⟨none, GenOutcome.timeout, DeliveryOutcome.timeout⟩).failure = none ∧
    Event.outputSet "status" "200" ∈
      (IndexJs.run ⟨"chg", "bk", "k", "", ""⟩
        ⟨none, GenOutcome.timeout, DeliveryOutcome.timeout⟩).events ∧
    Event.outputSet "response" noApiPlaceholder ∈
      (IndexJs.run ⟨"chg", "bk", "k", "", ""⟩
        ⟨none, GenOutcome.timeout, DeliveryOutcome.timeout⟩).events ∧
    (IndexTs.run ⟨"chg", "bk", "k", "", ""⟩
      ⟨none, GenOutcome.timeout, DeliveryOutcome.timeout⟩).failure = none ∧
    Event.outputSet "status" "200" ∈
      (IndexTs.run ⟨"chg", "bk", "k", "", ""⟩
        ⟨none, GenOutcome.timeout, DeliveryOutcome.timeout⟩).events ∧
    Event.outputSet "response" noApiPlaceholder ∈
      (IndexTs.run ⟨"chg", "bk", "k", "", ""⟩
        ⟨none, GenOutcome.timeout, DeliveryOutcome.timeout⟩).events :=
  (no_delivery_url_placeholder ⟨"chg", "bk", "k", "", ""⟩
    ⟨none, GenOutcome.timeout, DeliveryOutcome.timeout⟩ rfl).2 "chg" (by decide) rfl

/-- Counterexample to claim C5 as stated: a parsed body whose choices
member is a JSON object with a field named 0 - not a non-empty array -
still succeeds, because JavaScript bracket indexing reads object fields;
so success does not require a choices array. -/
theorem summary_shape_counterexample :
    extractSummary (Except.ok choicesObjectResponse) = Except.ok "hi" ∧
    specSuccessShape choicesObjectResponse = false :=
  ⟨rfl, rfl⟩

/-- Claim C5 amended: a parsed body with a non-empty choices array whose
first element carries a message object with a string content succeeds and
returns that string trimmed (though this shape is sufficient, not
necessary: JavaScript indexing also accepts a choices object with a field
named 0); malformed JSON is rejected with the parse-failure error, missing
choices and missing message with the invalid-format error, and a missing
content with the parse-failure error from the thrown TypeError; every
failure of the handler is one of these two shape classifications, never a
transport or timeout error. -/
theorem summary_shape_classification :
    (∀ (fs cfs mfs : List (String × Json)) (cs : List Json) (s : String),
      fs.lookup "choices" = some (Json.arr (Json.obj cfs :: cs)) →
      cfs.lookup "message" = some (Json.obj mfs) →
      mfs.lookup "content" = some (Json.str s) →
      extractSummary (Except.ok (Json.obj fs)) = Except.ok (jsTrim s)) ∧
    (∀ m, extractSummary (Except.error m) = Except.error (GenError.parseFailed m)) ∧
    (∀ fs : List (String × Json), fs.lookup "choices" = none →
      extractSummary (Except.ok (Json.obj fs)) = Except.error GenError.invalidFormat) ∧
    (∀ (fs cfs : List (String × Json)) (cs : List Json),
      fs.lookup "choices" = some (Json.arr (Json.obj cfs :: cs)) →
      cfs.lookup "message" = none →
      extractSummary (Except.ok (Json.obj fs)) = Except.error GenError.invalidFormat) ∧
    (∀ (fs cfs mfs : List (String × Json)) (cs : List Json),
      fs.lookup "choices" = some (Json.arr (Json.obj cfs :: cs)) →
      cfs.lookup "message" = some (Json.obj mfs) →
      mfs.lookup "content" = none →
      extractSummary (Except.ok (Json.obj fs)) =
        Except.error (GenError.parseFailed "TypeError")) ∧
    (∀ (p : Except String Json) (e : GenError), extractSummary p = Except.error e →
      e = GenError.invalidFormat ∨ ∃ m, e = GenError.parseFailed m) :=
  ⟨extractSummary_arr_ok, extractSummary_malformed, extractSummary_no_choices,
   extractSummary_no_message, extractSummary_no_content, extractSummary_err_shape⟩

/-- Witness for claim C5: the spec's example body yields the trimmed
summary Hello; a malformed body and a body without choices are rejected
with their respective shape classifications. -/
theorem summary_shape_classification_witness :
    extractSummary (Except.ok (Json.obj [("choices", Json.arr [Json.obj
      [("message", Json.obj [("content", Json.str " Hello ")])]])])) = Except.ok "Hello" ∧
    extractSummary (Except.error "Unexpected token") =
      Except.error (GenError.parseFailed "Unexpected token") ∧
    extractSummary (Except.ok (Json.obj [("id", Json.str "x")])) =
      Except.error GenError.invalidFormat :=
  ⟨summary_shape_classification.1
      [("choices", Json.arr [Json.obj [("message", Json.obj [("content", Json.str " Hello ")])]])]
      [("message", Json.obj [("content", Json.str " Hello ")])]
      [("content", Json.str " Hello ")] [] " Hello " rfl rfl rfl,
   summary_shape_classification.2.1 "Unexpected token",
   summary_shape_classification.2.2.1 [("id", Json.str "x")] rfl⟩

/-- Claim C6: delivery path normalization is idempotent on every path, and
on the pathname of the example URL it appends the segment exactly once,
with a second application changing nothing. -/
theorem path_normalization_idempotent :
    (∀ p, normalizePath (normalizePath p) = normalizePath p) ∧
    normalizePath "/a/" = "/a/generate-content" ∧
    normalizePath (normalizePath "/a/") = "/a/generate-content" :=
  ⟨normalizePath_idem, by decide, by decide⟩

/-- Claim C7: the delivery request path equals the spec's description -
preserve a path already ending in the segment, otherwise strip a trailing
slash and append the segment, then append the original query string - and
in particular an existing suffix is preserved unchanged with the query
appended after it. -/
theorem delivery_path_spec :
    ∀ pathname search : String,
      sendToAPIPath pathname search = specDeliveryPath pathname search ∧
      (jsEndsWith pathname "/generate-content" = true →
        sendToAPIPath pathname search = pathname ++ search) := by
  intro p s
  constructor
  · unfold sendToAPIPath specDeliveryPath normalizePath
    split <;> rfl
  · intro h
    unfold sendToAPIPath
    rw [normalizePath_of_endsWith p h]

/-- Witness for claim C7: a pathname already ending in the segment is kept
unchanged and the query string is appended after it. -/
theorem delivery_path_spec_witness :
    sendToAPIPath "/api/generate-content" "?q=1" = "/api/generate-content" ++ "?q=1" :=
  (delivery_path_spec "/api/generate-content" "?q=1").2 (by decide)

/-- Claim C8: the short hash is a prefix of the full hash - appending the
dropped remainder recovers the full hash - equal to the first 8 characters
when the full hash has at least 8 characters, and equal to the full hash
itself when shorter. -/
theorem shortHash_prefix_spec :
    ∀ m h f d b : String,
      ((mkCommitData m h f d b).shortHash ++ String.mk (h.data.drop 8) = h) ∧
      (8 ≤ h.data.length →
        (mkCommitData m h f d b).shortHash.data = h.data.take 8) ∧
      (h.data.length < 8 → (mkCommitData m h f d b).shortHash = h) :=
  fun m h f d b =>
    ⟨shortHash_append m h f d b, fun _ => rfl, shortHash_short m h f d b⟩

/-- Witness for claim C8: a 16-character hash is cut to its first 8
characters; a 3-character hash is kept whole. -/
theorem shortHash_prefix_spec_witness :
    (mkCommitData "msg" "0123456789abcdef" "files" "diff" "main").shortHash.data =
      "0123456789abcdef".data.take 8 ∧
    (mkCommitData "msg" "abc" "files" "diff" "main").shortHash = "abc" :=
  ⟨(shortHash_prefix_spec "msg" "0123456789abcdef" "files" "diff" "main").2.1 (by decide),
   (shortHash_prefix_spec "msg" "abc" "files" "diff" "main").2.2 (by decide)⟩

/-- Counterexample to claim C9 as stated: the TypeScript variant's delivery
request headers never contain an authorization entry, yet a run with a
configured delivery API key still makes a delivery request with those
headers. -/
theorem delivery_headers_counterexample :
    "Authorization" ∉ (IndexTs.deliveryHeaders 57).map Prod.fst ∧
    Event.deliveryRequest ∈
      (IndexTs.run ⟨"chg", "bk", "key-configured", "http://collector.example", ""⟩
        ⟨none, GenOutcome.timeout, DeliveryOutcome.response 200 "ok"⟩).events :=
  ⟨by decide, by decide⟩

/-- Claim C9 amended: in the index.js variant every delivery request
carries the bearer authorization built from the delivery API key alongside
the content-type, content-length and user-agent headers; in the TypeScript
variant the delivery request carries only content-type, content-length and
user-agent, with no authorization header regardless of any configured key. -/
theorem delivery_headers_characterization :
    (∀ (ak : String) (n : Nat),
      ("Authorization", "Bearer " ++ ak) ∈ IndexJs.deliveryHeaders ak n ∧
      ("Content-Type", "application/json") ∈ IndexJs.deliveryHeaders ak n ∧
      ("Content-Length", toString n) ∈ IndexJs.deliveryHeaders ak n ∧
      ("User-Agent", "GitHub-Action-Send-Changes/1.0") ∈ IndexJs.deliveryHeaders ak n) ∧
    (∀ n : Nat,
      "Authorization" ∉ (IndexTs.deliveryHeaders n).map Prod.fst ∧
      ("Content-Type", "application/json") ∈ IndexTs.deliveryHeaders n ∧
      ("Content-Length", toString n) ∈ IndexTs.deliveryHeaders n ∧
      ("User-Agent", "GitHub-Action-Send-Changes/1.0") ∈ IndexTs.deliveryHeaders n) := by
  constructor
  · intro ak n
    simp [IndexJs.deliveryHeaders]
  · intro n
    simp [IndexTs.deliveryHeaders]

/-- Claim C10: whenever a delivery request occurs, the trace is exactly the
summary-stage events (which publish no output) followed by the summary
output and then the delivery request; and when the delivery call fails with
a transport error or timeout after a delivery request was made, the run
fails with the summary output already published while no response or
status output is ever published - in both variants. -/
theorem summary_before_delivery :
    (∀ (cfg : Config) (w : World),
      Event.deliveryRequest ∈ (IndexJs.run cfg w).events →
      (∃ s post, (IndexJs.run cfg w).events =
        (summaryStage cfg w).1 ++ Event.outputSet "summary" s ::
          Event.deliveryRequest :: post) ∧
      (∀ n v, Event.outputSet n v ∉ (summaryStage cfg w).1)) ∧
    (∀ (cfg : Config) (w : World),
      Event.deliveryRequest ∈ (IndexTs.run cfg w).events →
      (∃ s post, (IndexTs.run cfg w).events =
        (summaryStage cfg w).1 ++ Event.outputSet "summary" s ::
          Event.deliveryRequest :: post) ∧
      (∀ n v, Event.outputSet n v ∉ (summaryStage cfg w).1)) ∧
    (∀ (cfg : Config) (w : World),
      ((∃ m, w.deliveryOutcome = DeliveryOutcome.transportError m) ∨
        w.deliveryOutcome = DeliveryOutcome.timeout) →
      Event.deliveryRequest ∈ (IndexJs.run cfg w).events →
      (IndexJs.run cfg w).failure.isSome = true ∧
      (∃ s, Event.outputSet "summary" s ∈ (IndexJs.run cfg w).events) ∧
      (∀ v, Event.outputSet "response" v ∉ (IndexJs.run cfg w).events) ∧
      (∀ v, Event.outputSet "status" v ∉ (IndexJs.run cfg w).events)) ∧
    (∀ (cfg : Config) (w : World),
      ((∃ m, w.deliveryOutcome = DeliveryOutcome.transportError m) ∨
        w.deliveryOutcome = DeliveryOutcome.timeout) →
      Event.deliveryRequest ∈ (IndexTs.run cfg w).events →
      (IndexTs.run cfg w).failure.isSome = true ∧
      (∃ s, Event.outputSet "summary" s ∈ (IndexTs.run cfg w).events) ∧
      (∀ v, Event.outputSet "response" v ∉ (IndexTs.run cfg w).events) ∧
      (∀ v, Event.outputSet "status" v ∉ (IndexTs.run cfg w).events)) :=
  ⟨fun cfg w hr => ⟨runWith_order _ cfg w hr, fun n v => summaryStage_no_output cfg w n v⟩,
   fun cfg w hr => ⟨runWith_order _ cfg w hr, fun n v => summaryStage_no_output cfg w n v⟩,
   fun cfg w hd hr => runWith_transport_frame _ cfg w hd hr,
   fun cfg w hd hr => runWith_transport_frame _ cfg w hd hr⟩

/-- Witness for claim C10: a concrete run whose delivery call fails with a
connection error ends in failure with the summary output published and no
response or status output. -/
theorem summary_before_delivery_witness :
    (IndexJs.run ⟨"chg", "bk", "k", "http://collector.example", ""⟩
      ⟨none, GenOutcome.timeout, DeliveryOutcome.transportError "ECONNREFUSED"⟩).failure.isSome
        = true ∧
    (∃ s, Event.outputSet "summary" s ∈
      (IndexJs.run ⟨"chg", "bk", "k", "http://collector.example", ""⟩
        ⟨none, GenOutcome.timeout, DeliveryOutcome.transportError "ECONNREFUSED"⟩).events) ∧
    (∀ v, Event.outputSet "response" v ∉
      (IndexJs.run ⟨"chg", "bk", "k", "http://collector.example", ""⟩
        ⟨none, GenOutcome.timeout, DeliveryOutcome.transportError "ECONNREFUSED"⟩).events) ∧
    (∀ v, Event.outputSet "status" v ∉
      (IndexJs.run ⟨"chg", "bk", "k", "http://collector.example", ""⟩
        ⟨none, GenOutcome.timeout, DeliveryOutcome.transportError "ECONNREFUSED"⟩).events) :=
  summary_before_delivery.2.2.1 ⟨"chg", "bk", "k", "http://collector.example", ""⟩
    ⟨none, GenOutcome.timeout, DeliveryOutcome.transportError "ECONNREFUSED"⟩
    (Or.inl ⟨"ECONNREFUSED", rfl⟩) (by decide)
